import Mathlib

/-!
Verification development for the `mxnet-the-straight-dope` tutorial notebooks.

The repository holds three notebook programs:
* a convolutional network trained on MNIST (`P04-C02-cnn-gluon.ipynb`, first part),
* a multiclass logistic regression trained on MNIST (`P04-C02-cnn-gluon.ipynb`,
  second part),
* a VGG network trained on CIFAR-10 (`src/unnamed/part_000`),
plus an NDArray tutorial (`P01-C02-ndarray.ipynb`).

This file shallowly embeds the training/evaluation loops, the accuracy
computation, the data iterators' batching behaviour, and the NDArray
in-place-operation cells, and settles the frozen claims about them.
-/

/-! ## Python values and environments

The training loops read and write Python variables (`i`, `e`, `curr_loss`,
`moving_loss`, `smoothing_constant`, `alex_net`, ...).  We model a Python
scope as an association list from names to values; assignment prepends a
binding (lookup finds the most recent one, which matches Python's
overwrite semantics), and reading an unbound name is a `NameError`. -/

/-- A Python runtime exception. -/
inductive Exc where
  /-- `NameError: name '<n>' is not defined`. -/
  | nameError (n : String)
  /-- any other runtime error -/
  | runtimeError (msg : String)
deriving DecidableEq, Repr

/-- A Python value: a number (Python ints and floats are both modelled as
rationals), or an opaque framework object identified by a tag. -/
inductive PyVal where
  | num (q : ℚ)
  | obj (tag : String)
deriving DecidableEq, Repr

/-- A Python scope: newest binding first. -/
abbrev PyEnv := List (String × PyVal)

/-- Name lookup: the most recent binding wins. -/
def envLookup : PyEnv → String → Option PyVal
  | [], _ => none
  | (y, v) :: rest, x => if y = x then some v else envLookup rest x

/-- Assignment `x = v`: prepend the new binding. -/
def envSet (env : PyEnv) (x : String) (v : PyVal) : PyEnv := (x, v) :: env

/-- Evaluate the name `x`: `NameError` when unbound (CPython semantics). -/
def pyName (env : PyEnv) (x : String) : Except Exc PyVal :=
  match envLookup env x with
  | some v => .ok v
  | none => .error (.nameError x)

/-- Evaluate the name `x` as a number; a framework object in a numeric
position would be a `TypeError` (never reached in the embedded programs). -/
def pyNum (env : PyEnv) (x : String) : Except Exc ℚ :=
  match envLookup env x with
  | some (.num q) => .ok q
  | some (.obj t) => .error (.runtimeError ("TypeError: " ++ t))
  | none => .error (.nameError x)

/-- The `else` branch of the moving-loss conditional expression,
`(1 - smoothing_constant) * moving_loss + (smoothing_constant) * curr_loss`,
with each name resolved against the current scope. -/
def movingLossElse (env : PyEnv) : Except Exc ℚ := do
  let sc ← pyNum env "smoothing_constant"
  let ml ← pyNum env "moving_loss"
  let cl ← pyNum env "curr_loss"
  pure ((1 - sc) * ml + sc * cl)

/-- The right-hand side of the moving-loss assignment, shared verbatim by all
three training loops:

```
moving_loss = (curr_loss if ((i == 0) and (e == 0))
               else (1 - smoothing_constant) * moving_loss
                    + (smoothing_constant) * curr_loss)
```

Python evaluates the condition first (`and` short-circuits: `e` is only read
when `i == 0`), then the selected branch.  Every name is resolved against the
current scope; in the VGG notebook the loop is `for d, l in train_data:` so
`i` is never bound and this expression raises `NameError: name 'i' is not
defined`. -/
def movingLossRhs (env : PyEnv) : Except Exc ℚ := do
  let i ← pyNum env "i"
  if i = 0 then do
    let e ← pyNum env "e"
    if e = 0 then pyNum env "curr_loss" else movingLossElse env
  else movingLossElse env

/-! ## Statements and a trace semantics

The loops are straight-line sequences of primitive operations (each batch and
each epoch count is a fixed constant in the notebooks, so the `for` loops are
finite and are embedded as their unrollings).  A primitive operation may carry
an observable event (used by the ordering and frame claims) and may raise.
`tryExcept` is part of the statement language so that the absence of any
exception handling in the programs is a non-vacuous, checkable property. -/

/-- Observable events of the training/evaluation loops. -/
inductive Ev where
  | recordOn      -- entering `autograd.record()`
  | recordOff     -- leaving `autograd.record()`
  | forward       -- `output = net(data)`
  | lossCalc      -- `loss = softmax_cross_entropy(output, label)`
  | backward      -- `loss.backward()`
  | step          -- `trainer.step(data.shape[0])`
  | movingLossUpd -- the `moving_loss = ...` assignment
  | accUpdate     -- `acc.update(preds=..., labels=...)`
  | accEval       -- a call to `evaluate_accuracy`
  | printMetrics  -- the epoch-end `print(...)`
  | iterReset     -- `data_iterator.reset()` / `train_data.reset()`
deriving DecidableEq, Repr

/-- Statements over a state type `σ`. -/
inductive Stmt (σ : Type) where
  | skip
  | prim (ev : Option Ev) (f : σ → Except Exc σ)
  | seq (a b : Stmt σ)
  | tryExcept (body handler : Stmt σ)

/-- Result of running a statement: the state reached (on an exception, the
state at the point of failure), the events of the operations that completed,
and the exception if one escaped. -/
structure Outcome (σ : Type) where
  state : σ
  events : List Ev
  exc : Option Exc

/-- Big-step execution.  An exception aborts the rest of a sequence and
propagates; only `tryExcept` stops it (running the handler from the state at
the failure point, as Python does). -/
def exec {σ : Type} : Stmt σ → σ → Outcome σ
  | .skip, st => ⟨st, [], none⟩
  | .prim ev f, st =>
    match f st with
    | .ok st' => ⟨st', ev.toList, none⟩
    | .error e => ⟨st, [], some e⟩
  | .seq a b, st =>
    let ra := exec a st
    match ra.exc with
    | some _ => ra
    | none =>
      let rb := exec b ra.state
      ⟨rb.state, ra.events ++ rb.events, rb.exc⟩
  | .tryExcept a h, st =>
    let ra := exec a st
    match ra.exc with
    | some _ =>
      let rh := exec h ra.state
      ⟨rh.state, ra.events ++ rh.events, rh.exc⟩
    | none => ra

/-- `body 0; body 1; ...; body (n-1)` — the unrolling of a `for` loop with a
known iteration count. -/
def loopUnroll {σ : Type} : ℕ → (ℕ → Stmt σ) → Stmt σ
  | 0, _ => .skip
  | n + 1, body => .seq (loopUnroll n body) (body n)

/-- `s₀; s₁; ...` for an explicit list of statements. -/
def seqList {σ : Type} : List (Stmt σ) → Stmt σ
  | [] => .skip
  | s :: rest => .seq s (seqList rest)

/-- `true` iff the statement contains no `try/except` construct. -/
def noTry {σ : Type} : Stmt σ → Bool
  | .skip => true
  | .prim _ _ => true
  | .seq a b => noTry a && noTry b
  | .tryExcept _ _ => false

/-! ## The training loops

The numerical work (forward pass, gradients, SGD update, accuracy of a net on
a fixed dataset) is performed by the mxnet/gluon framework and is not code of
this repository; the spec treats it as an external collaborator.  It enters
the embedding as an abstract interface `Frame`: what the loops *do* with it —
ordering, state updates, name resolution, error propagation — is taken from
the notebook source. -/

/-- The framework operations used by the loops, abstracted over the parameter
type `P` and gradient type `G`.  Batches are identified by their index within
an epoch. -/
structure Frame (P G : Type) where
  /-- mean of `softmax_cross_entropy(net(data), label)` over batch `b` -/
  lossOf : P → ℕ → ℚ
  /-- gradients produced by `loss.backward()` on batch `b` -/
  gradOf : P → ℕ → G
  /-- `trainer.step(batch_size)`: SGD update of the parameters -/
  stepF : P → G → ℕ → P
  /-- `evaluate_accuracy(test_data, net)` for the net owning the parameters -/
  testAcc : P → ℚ
  /-- `evaluate_accuracy(train_data, net)` for the net owning the parameters -/
  trainAcc : P → ℚ
  /-- `evaluate_accuracy(test_data, obj)` for an arbitrary object -/
  accObjTest : PyVal → ℚ
  /-- `evaluate_accuracy(train_data, obj)` for an arbitrary object -/
  accObjTrain : PyVal → ℚ
  /-- number of label matches of the net's argmax predictions on batch `b`
      of the iterator passed to `evaluate_accuracy` -/
  correctOf : P → ℕ → ℕ

/-- State of a training notebook run: the trainable parameters and gradient
buffers (owned by the framework), the `autograd` recording flag, the scalar
mean of the current `loss` array, the `mx.metric.Accuracy` counters of the
most recent `evaluate_accuracy` call, and the Python scope. -/
structure TrainSt (P G : Type) where
  params : P
  grads : G
  recording : Bool
  lastLoss : ℚ
  accC : ℕ
  accN : ℕ
  env : PyEnv

/-- Batch body of the two gluon/MNIST training loops (the CNN notebook and the
multiclass-logistic-regression notebook share this code verbatim):

```
for i, batch in enumerate(train_data):
    data = batch.data[0].as_in_context(ctx)        # (+ .reshape((-1,784)) in MLR)
    label = batch.label[0].as_in_context(ctx)
    with autograd.record():
        output = net(data)
        loss = softmax_cross_entropy(output, label)
    loss.backward()
    trainer.step(data.shape[0])
    curr_loss = nd.mean(loss).asscalar()
    moving_loss = (curr_loss if ((i == 0) and (e == 0)) else ...)
```

`data.shape[0]` is the batch size, 64 in both notebooks.  `data`, `label`,
`batch`, `output` and `loss` are framework arrays whose numeric content the
claims never consult beyond `lastLoss`; their assignments are embedded as
event-free primitives. -/
def gluonBatchBody {P G : Type} (F : Frame P G) (b : ℕ) : Stmt (TrainSt P G) :=
  seqList [
    .prim none (fun st => .ok { st with env := envSet st.env "i" (.num b) }),
    .prim none (fun st => .ok st),
    .prim none (fun st => .ok st),
    .prim (some .recordOn) (fun st => .ok { st with recording := true }),
    .prim (some .forward) (fun st => .ok st),
    .prim (some .lossCalc) (fun st => .ok { st with lastLoss := F.lossOf st.params b }),
    .prim (some .recordOff) (fun st => .ok { st with recording := false }),
    .prim (some .backward) (fun st => .ok { st with grads := F.gradOf st.params b }),
    .prim (some .step) (fun st => .ok { st with params := F.stepF st.params st.grads 64 }),
    .prim none (fun st => .ok { st with env := envSet st.env "curr_loss" (.num st.lastLoss) }),
    .prim (some .movingLossUpd) (fun st => do
      let v ← movingLossRhs st.env
      .ok { st with env := envSet st.env "moving_loss" (.num v) })]

/-- Epoch tail of the gluon/MNIST loops:

```
    test_accuracy = evaluate_accuracy(test_data, net)
    train_accuracy = evaluate_accuracy(train_data, net)
    print("Epoch %s. Loss: %s, Train_acc %s, Test_acc %s"
          % (e, moving_loss, train_accuracy, test_accuracy))
```

`net` is the module whose parameters `trainer` updates, so the two accuracy
values are functions of the current `st.params`.  The `print` resolves `e`,
`moving_loss`, `train_accuracy` and `test_accuracy` against the scope. -/
def gluonEpochEnd {P G : Type} (F : Frame P G) : Stmt (TrainSt P G) :=
  seqList [
    .prim (some .accEval) (fun st =>
      .ok { st with env := envSet st.env "test_accuracy" (.num (F.testAcc st.params)) }),
    .prim (some .accEval) (fun st =>
      .ok { st with env := envSet st.env "train_accuracy" (.num (F.trainAcc st.params)) }),
    .prim (some .printMetrics) (fun st => do
      let _ ← pyNum st.env "e"
      let _ ← pyNum st.env "moving_loss"
      let _ ← pyNum st.env "train_accuracy"
      let _ ← pyNum st.env "test_accuracy"
      .ok st)]

/-- One epoch of the gluon/MNIST loops (`nb` batches per epoch):

```
for e in range(epochs):
    train_data.reset()
    <nb batch bodies>
    <epoch tail>
``` -/
def gluonEpochBody {P G : Type} (F : Frame P G) (nb : ℕ) (e : ℕ) : Stmt (TrainSt P G) :=
  .seq (.prim none (fun st => .ok { st with env := envSet st.env "e" (.num e) }))
    (.seq (.prim (some .iterReset) (fun st => .ok st))
      (.seq (loopUnroll nb (fun b => gluonBatchBody F b))
        (gluonEpochEnd F)))

/-- The full gluon/MNIST training loop; `epochs = 10` in both notebooks. -/
def gluonTrainLoop {P G : Type} (F : Frame P G) (nb : ℕ) : Stmt (TrainSt P G) :=
  loopUnroll 10 (gluonEpochBody F nb)

/-- Batch body of the VGG/CIFAR-10 training loop (`src/unnamed/part_000`):

```
for d, l in train_data:
    data = d.as_in_context(ctx)
    label = l.as_in_context(ctx)
    with autograd.record():
        output = vgg_net(data)
        loss = softmax_cross_entropy(output, label)
    loss.backward()
    trainer.step(data.shape[0])
    curr_loss = nd.mean(loss).asscalar()
    moving_loss = (curr_loss if ((i == 0) and (e == 0)) else ...)
```

Unlike the two MNIST loops, the `for` statement binds `d` and `l` only —
there is no `enumerate`, so no name `i` is ever bound. -/
def vggBatchBody {P G : Type} (F : Frame P G) (b : ℕ) : Stmt (TrainSt P G) :=
  seqList [
    .prim none (fun st => .ok st),
    .prim none (fun st => .ok st),
    .prim none (fun st => .ok st),
    .prim (some .recordOn) (fun st => .ok { st with recording := true }),
    .prim (some .forward) (fun st => .ok st),
    .prim (some .lossCalc) (fun st => .ok { st with lastLoss := F.lossOf st.params b }),
    .prim (some .recordOff) (fun st => .ok { st with recording := false }),
    .prim (some .backward) (fun st => .ok { st with grads := F.gradOf st.params b }),
    .prim (some .step) (fun st => .ok { st with params := F.stepF st.params st.grads 64 }),
    .prim none (fun st => .ok { st with env := envSet st.env "curr_loss" (.num st.lastLoss) }),
    .prim (some .movingLossUpd) (fun st => do
      let v ← movingLossRhs st.env
      .ok { st with env := envSet st.env "moving_loss" (.num v) })]

/-- Epoch tail of the VGG loop:

```
    test_accuracy = evaluate_accuracy(test_data, alex_net)
    train_accuracy = evaluate_accuracy(train_data, alex_net)
    print("Epoch %s. Loss: %s, Train_acc %s, Test_acc %s" % ...)
```

The argument `alex_net` is resolved against the scope before the call; the
VGG notebook never defines `alex_net` (the net being trained is `vgg_net`),
so this raises `NameError: name 'alex_net' is not defined`. -/
def vggEpochEnd {P G : Type} (F : Frame P G) : Stmt (TrainSt P G) :=
  seqList [
    .prim (some .accEval) (fun st => do
      let net ← pyName st.env "alex_net"
      .ok { st with env := envSet st.env "test_accuracy" (.num (F.accObjTest net)) }),
    .prim (some .accEval) (fun st => do
      let net ← pyName st.env "alex_net"
      .ok { st with env := envSet st.env "train_accuracy" (.num (F.accObjTrain net)) }),
    .prim (some .printMetrics) (fun st => do
      let _ ← pyNum st.env "e"
      let _ ← pyNum st.env "moving_loss"
      let _ ← pyNum st.env "train_accuracy"
      let _ ← pyNum st.env "test_accuracy"
      .ok st)]

/-- One epoch of the VGG loop.  CIFAR-10 has 50000 training images and the
`DataLoader` uses `batch_size=64, last_batch='discard'`, so each epoch yields
`50000 / 64 = 781` batches.  A `gluon.data.DataLoader` needs no `reset`. -/
def vggEpochBody {P G : Type} (F : Frame P G) (e : ℕ) : Stmt (TrainSt P G) :=
  .seq (.prim none (fun st => .ok { st with env := envSet st.env "e" (.num e) }))
    (.seq (loopUnroll 781 (fun b => vggBatchBody F b))
      (vggEpochEnd F))

/-- The full VGG training loop: `epochs = 10`. -/
def vggTrainLoop {P G : Type} (F : Frame P G) : Stmt (TrainSt P G) :=
  loopUnroll 10 (vggEpochBody F)

/-- The global scope of the VGG notebook when the training-loop cell starts:
every top-level name the notebook has assigned by then, newest first
(`epochs = 10` and `smoothing_constant = .01` come from the training cell
itself).  There is no binding for `i`, `moving_loss` or `alex_net`. -/
def vggInitEnv : PyEnv :=
  [("smoothing_constant", .num (1/100)), ("epochs", .num 10),
   ("softmax_cross_entropy", .obj "SoftmaxCrossEntropyLoss"),
   ("trainer", .obj "Trainer"), ("vgg_net", .obj "HybridSequential"),
   ("architecture", .obj "tuple"), ("num_classes", .num 10),
   ("vgg_stack", .obj "function"), ("vgg_block", .obj "function"),
   ("l", .obj "NDArray"), ("d", .obj "NDArray"),
   ("test_data", .obj "DataLoader"), ("train_data", .obj "DataLoader"),
   ("batch_size", .num 64), ("transformer", .obj "function"),
   ("ctx", .obj "Context"), ("evaluate_accuracy", .obj "function"),
   ("np", .obj "module"), ("gluon", .obj "module"), ("nd", .obj "module"),
   ("autograd", .obj "module"), ("mx", .obj "module")]

/-- Initial state of a VGG training run. -/
def vggInit {P G : Type} (p0 : P) (g0 : G) : TrainSt P G :=
  ⟨p0, g0, false, 0, 0, 0, vggInitEnv⟩

/-- The comparison run named by the `moving_loss`-is-display-only claim: the
VGG batch body with the moving-loss bookkeeping block (the `curr_loss` and
`moving_loss` assignments under the `Keep a moving average of the losses`
comment) removed, all else identical. -/
def vggBatchBodyNoBk {P G : Type} (F : Frame P G) (b : ℕ) : Stmt (TrainSt P G) :=
  seqList [
    .prim none (fun st => .ok st),
    .prim none (fun st => .ok st),
    .prim none (fun st => .ok st),
    .prim (some .recordOn) (fun st => .ok { st with recording := true }),
    .prim (some .forward) (fun st => .ok st),
    .prim (some .lossCalc) (fun st => .ok { st with lastLoss := F.lossOf st.params b }),
    .prim (some .recordOff) (fun st => .ok { st with recording := false }),
    .prim (some .backward) (fun st => .ok { st with grads := F.gradOf st.params b }),
    .prim (some .step) (fun st => .ok { st with params := F.stepF st.params st.grads 64 })]

/-- The VGG loop with the moving-loss bookkeeping removed; the rest of the
loop, including the epoch tail, is unchanged. -/
def vggEpochBodyNoBk {P G : Type} (F : Frame P G) (e : ℕ) : Stmt (TrainSt P G) :=
  .seq (.prim none (fun st => .ok { st with env := envSet st.env "e" (.num e) }))
    (.seq (loopUnroll 781 (fun b => vggBatchBodyNoBk F b))
      (vggEpochEnd F))

/-- The full VGG loop without moving-loss bookkeeping. -/
def vggTrainLoopNoBk {P G : Type} (F : Frame P G) : Stmt (TrainSt P G) :=
  loopUnroll 10 (vggEpochBodyNoBk F)

/-! ## `evaluate_accuracy` as a statement

For the frame claim about `evaluate_accuracy` we embed the function body
itself (identical in both MNIST notebooks, modulo a `reshape` on `data`):

```
def evaluate_accuracy(data_iterator, net):
    acc = mx.metric.Accuracy()
    data_iterator.reset()
    for i, batch in enumerate(data_iterator):
        data = batch.data[0].as_in_context(ctx)
        label = batch.label[0].as_in_context(ctx)
        output = net(data)
        predictions = nd.argmax(output, axis=1)
        acc.update(preds=predictions, labels=label)
    return acc.get()[1]
```

There is no `autograd.record()` block, no `backward` and no `trainer.step`
anywhere in the body.  The iterator pads to full 64-sample batches, so every
batch contributes 64 instances to `num_inst`. -/

/-- One iteration of the `evaluate_accuracy` loop: bind `data` and `label`,
run the net forward (outside any `autograd.record()`), take the argmax, and
update the `mx.metric.Accuracy` counters.  `F.correctOf p b` is the
framework-computed number of samples of batch `b` whose argmax-predicted
class matches the label under parameters `p`; each padded batch holds 64
samples. -/
def evalAccBatchBody {P G : Type} (F : Frame P G) (b : ℕ) : Stmt (TrainSt P G) :=
  seqList [
    .prim none (fun st => .ok st),
    .prim none (fun st => .ok st),
    .prim (some .forward) (fun st => .ok st),
    .prim none (fun st => .ok st),
    .prim (some .accUpdate) (fun st =>
      .ok { st with accC := st.accC + F.correctOf st.params b,
                    accN := st.accN + 64 })]

/-- The body of `evaluate_accuracy` over `nb` batches. -/
def evalAccuracyStmt {P G : Type} (F : Frame P G) (nb : ℕ) : Stmt (TrainSt P G) :=
  .seq (.prim none (fun st => .ok { st with accC := 0, accN := 0 }))
    (.seq (.prim (some .iterReset) (fun st => .ok st))
      (loopUnroll nb (evalAccBatchBody F)))

/-! ## `evaluate_accuracy` as a function

The value returned by `evaluate_accuracy` is settled on a functional
embedding of the same code: the iterator is a list of batches of
(input, integer label) pairs, the net maps an input to its list of class
scores, `nd.argmax(output, axis=1)` takes the per-row argmax, and
`mx.metric.Accuracy` keeps the pair (number of matches, number of instances)
and returns their quotient. -/

/-- One batch yielded by a data iterator. -/
structure DataBatch (ι : Type) where
  data : List ι
  label : List ℕ

/-- `nd.argmax` over one row of class scores: the index of the first
maximal entry (ties go to the earliest index, as in mxnet). -/
def argmax (scores : List ℚ) : ℕ :=
  (List.range scores.length).foldl
    (fun best j => if scores.getD best 0 < scores.getD j 0 then j else best) 0

/-- `mx.metric.Accuracy.update(preds, labels)`: add the number of
prediction/label matches to `sum_metric` and the number of predictions to
`num_inst`. -/
def accUpdateFn (acc : ℕ × ℕ) (preds labels : List ℕ) : ℕ × ℕ :=
  (acc.1 + (preds.zip labels).countP (fun pl => pl.1 = pl.2),
   acc.2 + preds.length)

/-- `evaluate_accuracy(data_iterator, net)`: one full pass over the iterator,
accumulating `mx.metric.Accuracy` over the argmax predictions, returning
`acc.get()[1] = sum_metric / num_inst`. -/
def evaluate_accuracy {ι : Type} (net : ι → List ℚ) (it : List (DataBatch ι)) : ℚ :=
  let acc := it.foldl
    (fun a b => accUpdateFn a (b.data.map (fun d => argmax (net d))) b.label)
    (0, 0)
  (acc.1 : ℚ) / (acc.2 : ℚ)

/-! ## What one epoch feeds the loop: the data iterators

The MNIST notebooks use `mx.io.NDArrayIter(..., batch_size=64, shuffle=True)`
whose default `last_batch_handle='pad'` completes the final batch with
samples wrapped around from the start of the (shuffled) data.  The VGG
notebook uses `gluon.data.DataLoader(..., batch_size=64, shuffle=True,
last_batch='discard')`, which drops the final incomplete batch.  The claims
about per-epoch sample coverage are settled on these batching models, applied
to the order in which the iterator holds the samples. -/

/-- The batches a `DataLoader` with `last_batch='discard'` yields from the
sample order `l`: the `k`-th batch holds samples `k*B .. k*B+B-1`, and the
trailing `l.length % B` samples are dropped. -/
def discardBatches {α : Type} (B : ℕ) (l : List α) : List (List α) :=
  (List.range (l.length / B)).map (fun k => (l.drop (k * B)).take B)

/-- All samples processed in one epoch under `last_batch='discard'`. -/
def discardPass {α : Type} (B : ℕ) (l : List α) : List α :=
  (discardBatches B l).flatten

/-- How many wrapped-around samples `NDArrayIter`'s default
`last_batch_handle='pad'` appends to fill the final batch. -/
def padAmount (B n : ℕ) : ℕ := (B - n % B) % B

/-- The batches an `NDArrayIter` with `last_batch_handle='pad'` yields from
the sample order `l`: the data extended by its first `padAmount` samples,
cut into batches of `B`. -/
def padBatches {α : Type} (B : ℕ) (l : List α) : List (List α) :=
  discardBatches B (l ++ l.take (padAmount B l.length))

/-- All samples processed in one epoch under `last_batch_handle='pad'`. -/
def padPass {α : Type} (B : ℕ) (l : List α) : List α :=
  (padBatches B l).flatten

/-- The samples one epoch of the VGG loop processes, as a function of the
order the shuffled CIFAR-10 training set is in: the 50000 samples cut into
64-sample batches with the trailing partial batch discarded. -/
def vggEpochSamples (order : List ℕ) : List ℕ := discardPass 64 order

/-! ## NDArray identity and in-place operations

The `P01-C02-ndarray.ipynb` cells under scrutiny are

```
y = y + x          # rebinding: id(y) changes
z = nd.zeros_like(x)
z[:] = x + y       # slice assignment: id(z) unchanged
x += y             # op-equals: id(x) unchanged
```

We model the NDArray store as a heap of arrays (an array is its list of
entries; `id` of an array is its heap address) and the notebook variables as
a name-to-address map.  `x + y` always allocates; slice assignment and the
NDArray `+=` write the elementwise result into the array the target already
points to. -/

/-- Heap of NDArrays plus the variable table of the notebook session. -/
structure NDState where
  heap : List (List ℚ)
  vars : List (String × ℕ)

/-- The heap address a variable refers to — the model of Python's `id()`. -/
def lookupVar : List (String × ℕ) → String → Option ℕ
  | [], _ => none
  | (y, a) :: rest, x => if y = x then some a else lookupVar rest x

/-- The array stored at address `a`. -/
def getArr (s : NDState) (a : ℕ) : List ℚ := s.heap.getD a []

/-- Elementwise sum of two arrays of equal shape. -/
def ndAdd (u v : List ℚ) : List ℚ := List.zipWith (· + ·) u v

/-- `y = y + x`: evaluate `y + x` into a freshly allocated array and rebind
the name `y` to it.  Fails (`NameError`) when a name is unbound. -/
def rebindAdd (s : NDState) (y x : String) : Option NDState := do
  let ay ← lookupVar s.vars y
  let ax ← lookupVar s.vars x
  some { heap := s.heap ++ [ndAdd (getArr s ay) (getArr s ax)],
         vars := (y, s.heap.length) :: s.vars }

/-- `z[:] = x + y`: evaluate `x + y` and store the result into the array `z`
already refers to; the binding of `z` is untouched. -/
def sliceAssignAdd (s : NDState) (z x y : String) : Option NDState := do
  let az ← lookupVar s.vars z
  let ax ← lookupVar s.vars x
  let ay ← lookupVar s.vars y
  some { heap := s.heap.set az (ndAdd (getArr s ax) (getArr s ay)),
         vars := s.vars }

/-- `x += y` on NDArrays: mxnet's `__iadd__` writes the elementwise sum into
the existing array object of `x`; the binding of `x` is untouched. -/
def iaddArr (s : NDState) (x y : String) : Option NDState := do
  let ax ← lookupVar s.vars x
  let ay ← lookupVar s.vars y
  some { heap := s.heap.set ax (ndAdd (getArr s ax) (getArr s ay)),
         vars := s.vars }

/-! ## Execution lemmas -/

theorem exec_skip {σ : Type} (st : σ) : exec .skip st = ⟨st, [], none⟩ := rfl

theorem exec_prim_eq {σ : Type} (ev : Option Ev) (f : σ → Except Exc σ) (st : σ) :
    exec (.prim ev f) st =
      match f st with
      | .ok st' => ⟨st', ev.toList, none⟩
      | .error e => ⟨st, [], some e⟩ := rfl

theorem exec_prim_ok {σ : Type} {ev : Option Ev} {f : σ → Except Exc σ} {st st' : σ}
    (h : f st = .ok st') : exec (.prim ev f) st = ⟨st', ev.toList, none⟩ := by
  rw [exec_prim_eq, h]

theorem exec_prim_er {σ : Type} {ev : Option Ev} {f : σ → Except Exc σ} {st : σ} {e : Exc}
    (h : f st = .error e) : exec (.prim ev f) st = ⟨st, [], some e⟩ := by
  rw [exec_prim_eq, h]

theorem exec_seq_eq {σ : Type} (a b : Stmt σ) (st : σ) :
    exec (.seq a b) st =
      match (exec a st).exc with
      | some _ => exec a st
      | none => ⟨(exec b (exec a st).state).state,
                 (exec a st).events ++ (exec b (exec a st).state).events,
                 (exec b (exec a st).state).exc⟩ := rfl

theorem exec_seq_of_err {σ : Type} {a : Stmt σ} (b : Stmt σ) {st : σ} {e : Exc}
    (h : (exec a st).exc = some e) : exec (.seq a b) st = exec a st := by
  rw [exec_seq_eq, h]

theorem exec_seq_of_ok {σ : Type} {a : Stmt σ} (b : Stmt σ) {st : σ}
    (h : (exec a st).exc = none) :
    exec (.seq a b) st = ⟨(exec b (exec a st).state).state,
      (exec a st).events ++ (exec b (exec a st).state).events,
      (exec b (exec a st).state).exc⟩ := by
  rw [exec_seq_eq, h]

theorem exec_seq_skip {σ : Type} (b : Stmt σ) (st : σ) :
    exec (.seq .skip b) st = exec b st := rfl

/-- An exception in an earlier iteration of an unrolled loop aborts the whole
loop with the same exception and the failure state. -/
theorem exec_loopUnroll_err0 {σ : Type} {body : ℕ → Stmt σ} {st : σ} {o : Outcome σ} {e : Exc}
    (h : exec (body 0) st = o) (he : o.exc = some e) :
    ∀ n, 0 < n → exec (loopUnroll n body) st = o := by
  intro n hn
  induction n with
  | zero => omega
  | succ m ih =>
    rcases Nat.eq_zero_or_pos m with hm | hm
    · subst hm
      rw [show loopUnroll 1 body = .seq .skip (body 0) from rfl, exec_seq_skip, h]
    · show exec (.seq (loopUnroll m body) (body m)) st = o
      rw [exec_seq_of_err _ (by rw [ih hm, he]), ih hm]

/-! ## Runs of the batch bodies -/

/-- Running the gluon/MNIST batch body on the very first batch of the first
epoch (`i = 0`, `e = 0`): the moving loss is set to the batch's mean loss. -/
theorem gluon_body_run_first {P G : Type} (F : Frame P G) (st : TrainSt P G)
    (he : envLookup st.env "e" = some (.num 0)) :
    exec (gluonBatchBody F 0) st =
      ⟨{ params := F.stepF st.params (F.gradOf st.params 0) 64,
         grads := F.gradOf st.params 0,
         recording := false,
         lastLoss := F.lossOf st.params 0,
         accC := st.accC, accN := st.accN,
         env := ("moving_loss", .num (F.lossOf st.params 0)) ::
                ("curr_loss", .num (F.lossOf st.params 0)) ::
                ("i", .num 0) :: st.env },
       [.recordOn, .forward, .lossCalc, .recordOff, .backward, .step, .movingLossUpd],
       none⟩ := by
  simp [gluonBatchBody, seqList, exec, movingLossRhs, movingLossElse, pyNum,
    envLookup, envSet, he, Bind.bind, Except.bind, pure, Except.pure]

/-- Running the gluon/MNIST batch body on any batch other than the very first
one of the run (`i ≠ 0` or `e ≠ 0`): the moving loss is updated by the
exponential-smoothing recurrence with factor `smoothing_constant = 1/100`. -/
theorem gluon_body_run_later {P G : Type} (F : Frame P G) (b : ℕ) (st : TrainSt P G)
    (qe m : ℚ)
    (he : envLookup st.env "e" = some (.num qe))
    (hsc : envLookup st.env "smoothing_constant" = some (.num (1/100)))
    (hml : envLookup st.env "moving_loss" = some (.num m))
    (hcase : ¬((b : ℚ) = 0 ∧ qe = 0)) :
    exec (gluonBatchBody F b) st =
      ⟨{ params := F.stepF st.params (F.gradOf st.params b) 64,
         grads := F.gradOf st.params b,
         recording := false,
         lastLoss := F.lossOf st.params b,
         accC := st.accC, accN := st.accN,
         env := ("moving_loss", .num ((1 - 1/100) * m + (1/100) * F.lossOf st.params b)) ::
                ("curr_loss", .num (F.lossOf st.params b)) ::
                ("i", .num b) :: st.env },
       [.recordOn, .forward, .lossCalc, .recordOff, .backward, .step, .movingLossUpd],
       none⟩ := by
  rcases Decidable.em ((b : ℚ) = 0) with hb | hb
  · have hqe : ¬(qe = 0) := fun h => hcase ⟨hb, h⟩
    simp [gluonBatchBody, seqList, exec, movingLossRhs, movingLossElse, pyNum,
      envLookup, envSet, he, hsc, hml, hb, hqe, Bind.bind, Except.bind, pure, Except.pure]
  · simp [gluonBatchBody, seqList, exec, movingLossRhs, movingLossElse, pyNum,
      envLookup, envSet, he, hsc, hml, hb, Bind.bind, Except.bind, pure, Except.pure]

/-- Running the VGG batch body in any state whose scope does not bind `i`
(as in the VGG notebook, whose loops never bind `i`): the forward pass, the
backward pass and the optimizer step complete, and the moving-loss assignment
raises `NameError: name 'i' is not defined`. -/
theorem vgg_body_run {P G : Type} (F : Frame P G) (b : ℕ) (st : TrainSt P G)
    (hi : envLookup st.env "i" = none) :
    exec (vggBatchBody F b) st =
      ⟨{ params := F.stepF st.params (F.gradOf st.params b) 64,
         grads := F.gradOf st.params b,
         recording := false,
         lastLoss := F.lossOf st.params b,
         accC := st.accC, accN := st.accN,
         env := ("curr_loss", .num (F.lossOf st.params b)) :: st.env },
       [.recordOn, .forward, .lossCalc, .recordOff, .backward, .step],
       some (.nameError "i")⟩ := by
  simp [vggBatchBody, seqList, exec, movingLossRhs, movingLossElse, pyNum,
    envLookup, envSet, hi, Bind.bind, Except.bind, pure, Except.pure]

/-- Running the gluon/MNIST epoch tail: both accuracies of the net being
trained (a function of the current parameters) are computed and bound, and
the metrics line is printed. -/
theorem gluon_epoch_end_run {P G : Type} (F : Frame P G) (st : TrainSt P G)
    (qe qm : ℚ)
    (he : envLookup st.env "e" = some (.num qe))
    (hml : envLookup st.env "moving_loss" = some (.num qm)) :
    exec (gluonEpochEnd F) st =
      ⟨{ st with env := ("train_accuracy", .num (F.trainAcc st.params)) ::
                        ("test_accuracy", .num (F.testAcc st.params)) :: st.env },
       [.accEval, .accEval, .printMetrics], none⟩ := by
  simp [gluonEpochEnd, seqList, exec, pyNum, envLookup, envSet, he, hml,
    Bind.bind, Except.bind, pure, Except.pure]

/-- Running the VGG epoch tail in any state whose scope does not bind
`alex_net` (the VGG notebook never binds it): the very first statement,
`test_accuracy = evaluate_accuracy(test_data, alex_net)`, raises
`NameError: name 'alex_net' is not defined`. -/
theorem vgg_epoch_end_run {P G : Type} (F : Frame P G) (st : TrainSt P G)
    (ha : envLookup st.env "alex_net" = none) :
    exec (vggEpochEnd F) st = ⟨st, [], some (.nameError "alex_net")⟩ := by
  simp [vggEpochEnd, seqList, exec, pyName, pyNum, envLookup, envSet, ha,
    Bind.bind, Except.bind, pure, Except.pure]

theorem exec_seq_prim_ok {σ : Type} (ev : Option Ev) (f : σ → Except Exc σ)
    (b : Stmt σ) (st st' : σ) (h : f st = .ok st') :
    exec (.seq (.prim ev f) b) st =
      ⟨(exec b st').state, ev.toList ++ (exec b st').events, (exec b st').exc⟩ := by
  rw [exec_seq_eq, exec_prim_ok h]

/-- One epoch of the VGG loop, started in any state whose scope does not bind
`i`: the first batch body fails at the moving-loss assignment, after its
optimizer step has already been applied. -/
theorem vgg_epoch_body_run0 {P G : Type} (F : Frame P G) (st : TrainSt P G)
    (hi : envLookup st.env "i" = none) :
    exec (vggEpochBody F 0) st =
      ⟨{ params := F.stepF st.params (F.gradOf st.params 0) 64,
         grads := F.gradOf st.params 0,
         recording := false,
         lastLoss := F.lossOf st.params 0,
         accC := st.accC, accN := st.accN,
         env := ("curr_loss", .num (F.lossOf st.params 0)) ::
                ("e", .num ((0:ℕ):ℚ)) :: st.env },
       [.recordOn, .forward, .lossCalc, .recordOff, .backward, .step],
       some (.nameError "i")⟩ := by
  have hi1 : envLookup (("e", PyVal.num ((0:ℕ):ℚ)) :: st.env) "i" = none := by
    simpa [envLookup] using hi
  have hbatch := vgg_body_run F 0 { st with env := ("e", PyVal.num ((0:ℕ):ℚ)) :: st.env } hi1
  have hloop := exec_loopUnroll_err0 hbatch rfl 781 (by norm_num)
  have hseq1 : exec (.seq (loopUnroll 781 fun b => vggBatchBody F b) (vggEpochEnd F))
      { st with env := ("e", PyVal.num ((0:ℕ):ℚ)) :: st.env } =
      exec (loopUnroll 781 fun b => vggBatchBody F b)
        { st with env := ("e", PyVal.num ((0:ℕ):ℚ)) :: st.env } :=
    exec_seq_of_err _ (by rw [hloop])
  show exec (.seq _ _) st = _
  rw [exec_seq_prim_ok none
    (fun st : TrainSt P G => .ok { st with env := envSet st.env "e" (.num (0:ℕ)) })
    ((loopUnroll 781 fun b => vggBatchBody F b).seq (vggEpochEnd F))
    st { st with env := ("e", PyVal.num ((0:ℕ):ℚ)) :: st.env } rfl, hseq1, hloop]
  rfl

/-- The full VGG training run from the notebook's initial state: it aborts
during the first batch of epoch 0 with `NameError: name 'i' is not defined`.
One optimizer step has been applied; no epoch ever completes and no metrics
line is ever printed. -/
theorem vgg_run_err {P G : Type} (F : Frame P G) (p0 : P) (g0 : G) :
    exec (vggTrainLoop F) (vggInit p0 g0) =
      ⟨{ params := F.stepF p0 (F.gradOf p0 0) 64,
         grads := F.gradOf p0 0,
         recording := false,
         lastLoss := F.lossOf p0 0,
         accC := 0, accN := 0,
         env := ("curr_loss", .num (F.lossOf p0 0)) ::
                ("e", .num ((0:ℕ):ℚ)) :: vggInitEnv },
       [.recordOn, .forward, .lossCalc, .recordOff, .backward, .step],
       some (.nameError "i")⟩ := by
  have hi : envLookup (vggInit p0 g0 : TrainSt P G).env "i" = none := by
    simp [vggInit, vggInitEnv, envLookup]
  have hepoch := vgg_epoch_body_run0 F (vggInit p0 g0) hi
  exact exec_loopUnroll_err0 hepoch rfl 10 (by norm_num)

theorem exec_loopUnroll_err0' {σ : Type} (body : ℕ → Stmt σ) (st : σ) (e : Exc)
    (h : (exec (body 0) st).exc = some e) :
    ∀ n, 0 < n → exec (loopUnroll n body) st = exec (body 0) st :=
  exec_loopUnroll_err0 rfl h

/-- The parameters produced by `n` successive `trainer.step(64)` updates over
batches `0 .. n-1`, starting from `p`. -/
def paramsIter {P G : Type} (F : Frame P G) (p : P) : ℕ → P
  | 0 => p
  | n + 1 => F.stepF (paramsIter F p n) (F.gradOf (paramsIter F p n) n) 64

/-- One batch of the bookkeeping-free VGG loop: always succeeds and leaves
the Python scope untouched. -/
theorem vgg_bodyNoBk_run {P G : Type} (F : Frame P G) (b : ℕ) (st : TrainSt P G) :
    exec (vggBatchBodyNoBk F b) st =
      ⟨{ st with
          params := F.stepF st.params (F.gradOf st.params b) 64,
          grads := F.gradOf st.params b,
          recording := false,
          lastLoss := F.lossOf st.params b },
       [.recordOn, .forward, .lossCalc, .recordOff, .backward, .step],
       none⟩ := by
  simp [vggBatchBodyNoBk, seqList, exec]

/-- The inner batch loop of the bookkeeping-free VGG loop: no exception, the
scope and accuracy counters are untouched, and the parameters are the result
of one optimizer step per batch. -/
theorem vgg_innerNoBk_run {P G : Type} (F : Frame P G) :
    ∀ (n : ℕ) (st : TrainSt P G),
      (exec (loopUnroll n fun b => vggBatchBodyNoBk F b) st).exc = none ∧
      (exec (loopUnroll n fun b => vggBatchBodyNoBk F b) st).state.env = st.env ∧
      (exec (loopUnroll n fun b => vggBatchBodyNoBk F b) st).state.params
        = paramsIter F st.params n ∧
      (exec (loopUnroll n fun b => vggBatchBodyNoBk F b) st).state.accC = st.accC ∧
      (exec (loopUnroll n fun b => vggBatchBodyNoBk F b) st).state.accN = st.accN := by
  intro n
  induction n with
  | zero => intro st; exact ⟨rfl, rfl, rfl, rfl, rfl⟩
  | succ m ih =>
    intro st
    obtain ⟨h1, h2, h3, h4, h5⟩ := ih st
    have hstep := vgg_bodyNoBk_run F m
      (exec (loopUnroll m fun b => vggBatchBodyNoBk F b) st).state
    simp only [show (loopUnroll (m+1) fun b => vggBatchBodyNoBk F b) =
      .seq (loopUnroll m fun b => vggBatchBodyNoBk F b) (vggBatchBodyNoBk F m) from rfl]
    rw [exec_seq_of_ok _ h1, hstep]
    refine ⟨rfl, ?_, ?_, ?_, ?_⟩
    · exact h2
    · show F.stepF _ (F.gradOf _ m) 64 = _
      rw [h3]
      rfl
    · exact h4
    · exact h5

/-- The bookkeeping-free VGG run: all 781 optimizer steps of epoch 0 are
applied, and the run then aborts at the epoch tail with
`NameError: name 'alex_net' is not defined`. -/
theorem vggNoBk_run_err {P G : Type} (F : Frame P G) (p0 : P) (g0 : G) :
    (exec (vggTrainLoopNoBk F) (vggInit p0 g0)).exc = some (.nameError "alex_net") ∧
    (exec (vggTrainLoopNoBk F) (vggInit p0 g0)).state.params = paramsIter F p0 781 := by
  obtain ⟨i1, i2, i3, i4, i5⟩ := vgg_innerNoBk_run F 781
    ⟨p0, g0, false, 0, 0, 0, ("e", PyVal.num ((0:ℕ):ℚ)) :: vggInitEnv⟩
  have ha : envLookup (exec (loopUnroll 781 fun b => vggBatchBodyNoBk F b)
      (⟨p0, g0, false, 0, 0, 0, ("e", PyVal.num ((0:ℕ):ℚ)) :: vggInitEnv⟩ :
        TrainSt P G)).state.env
      "alex_net" = none := by
    rw [i2]
    simp [envLookup, vggInitEnv]
  have htail := vgg_epoch_end_run F _ ha
  have hseq := exec_seq_of_ok (vggEpochEnd F) i1
  have hbody0 : exec (vggEpochBodyNoBk F 0) (vggInit p0 g0) =
      ⟨(exec (.seq (loopUnroll 781 fun b => vggBatchBodyNoBk F b) (vggEpochEnd F))
          (⟨p0, g0, false, 0, 0, 0, ("e", PyVal.num ((0:ℕ):ℚ)) :: vggInitEnv⟩ :
            TrainSt P G)).state,
       [] ++ (exec (.seq (loopUnroll 781 fun b => vggBatchBodyNoBk F b) (vggEpochEnd F))
          (⟨p0, g0, false, 0, 0, 0, ("e", PyVal.num ((0:ℕ):ℚ)) :: vggInitEnv⟩ :
            TrainSt P G)).events,
       (exec (.seq (loopUnroll 781 fun b => vggBatchBodyNoBk F b) (vggEpochEnd F))
          (⟨p0, g0, false, 0, 0, 0, ("e", PyVal.num ((0:ℕ):ℚ)) :: vggInitEnv⟩ :
            TrainSt P G)).exc⟩ :=
    exec_seq_prim_ok none
      (fun st : TrainSt P G => .ok { st with env := envSet st.env "e" (.num (0:ℕ)) })
      ((loopUnroll 781 fun b => vggBatchBodyNoBk F b).seq (vggEpochEnd F))
      (vggInit p0 g0)
      ⟨p0, g0, false, 0, 0, 0, ("e", PyVal.num ((0:ℕ):ℚ)) :: vggInitEnv⟩ rfl
  have hb0exc : (exec (vggEpochBodyNoBk F 0) (vggInit p0 g0)).exc =
      some (.nameError "alex_net") := by
    rw [hbody0, hseq, htail]
  have hb0par : (exec (vggEpochBodyNoBk F 0) (vggInit p0 g0)).state.params =
      paramsIter F p0 781 := by
    have hmid : (exec (vggEpochBodyNoBk F 0) (vggInit p0 g0)).state.params =
        (exec (loopUnroll 781 fun b => vggBatchBodyNoBk F b)
          (⟨p0, g0, false, 0, 0, 0, ("e", PyVal.num ((0:ℕ):ℚ)) :: vggInitEnv⟩ :
            TrainSt P G)).state.params := by
      rw [hbody0, hseq, htail]
    rw [hmid, i3]
  have hloop := exec_loopUnroll_err0' (vggEpochBodyNoBk F) (vggInit p0 g0)
    (.nameError "alex_net") hb0exc 10 (by norm_num)
  have hloop' : exec (vggTrainLoopNoBk F) (vggInit p0 g0) =
      exec (vggEpochBodyNoBk F 0) (vggInit p0 g0) := hloop
  rw [hloop']
  exact ⟨hb0exc, hb0par⟩

/-- One `evaluate_accuracy` iteration: only the accuracy counters change. -/
theorem evalAccBatchBody_run {P G : Type} (F : Frame P G) (b : ℕ) (st : TrainSt P G) :
    exec (evalAccBatchBody F b) st =
      ⟨{ st with
          accC := st.accC + F.correctOf st.params b,
          accN := st.accN + 64 },
       [.forward, .accUpdate], none⟩ := by
  simp [evalAccBatchBody, seqList, exec]

/-- The `evaluate_accuracy` loop never raises, leaves parameters, gradients,
the recording flag and the scope untouched, and emits only `forward` and
`accUpdate` events. -/
theorem evalAcc_loop_run {P G : Type} (F : Frame P G) :
    ∀ (n : ℕ) (st : TrainSt P G),
      (exec (loopUnroll n (evalAccBatchBody F)) st).exc = none ∧
      (exec (loopUnroll n (evalAccBatchBody F)) st).state.params = st.params ∧
      (exec (loopUnroll n (evalAccBatchBody F)) st).state.grads = st.grads ∧
      (exec (loopUnroll n (evalAccBatchBody F)) st).state.recording = st.recording ∧
      (exec (loopUnroll n (evalAccBatchBody F)) st).state.env = st.env ∧
      ∀ ev ∈ (exec (loopUnroll n (evalAccBatchBody F)) st).events,
        ev = .forward ∨ ev = .accUpdate := by
  intro n
  induction n with
  | zero =>
    intro st
    exact ⟨rfl, rfl, rfl, rfl, rfl, by intro ev h; cases h⟩
  | succ m ih =>
    intro st
    obtain ⟨h1, h2, h3, h4, h5, h6⟩ := ih st
    have hstep := evalAccBatchBody_run F m
      (exec (loopUnroll m (evalAccBatchBody F)) st).state
    simp only [show loopUnroll (m+1) (evalAccBatchBody F) =
      .seq (loopUnroll m (evalAccBatchBody F)) (evalAccBatchBody F m) from rfl]
    rw [exec_seq_of_ok _ h1, hstep]
    refine ⟨rfl, h2, h3, h4, h5, ?_⟩
    intro ev hev
    rcases List.mem_append.mp hev with hl | hr
    · exact h6 ev hl
    · simpa using hr

/-! ## No exception handling anywhere in the programs -/

theorem noTry_seqList {σ : Type} (l : List (Stmt σ)) :
    noTry (seqList l) = l.all noTry := by
  induction l with
  | nil => rfl
  | cons s rest ih => simp [seqList, noTry, ih]

theorem noTry_loopUnroll {σ : Type} (body : ℕ → Stmt σ)
    (h : ∀ k, noTry (body k) = true) : ∀ n, noTry (loopUnroll n body) = true := by
  intro n
  induction n with
  | zero => rfl
  | succ m ih => simp [loopUnroll, noTry, ih, h]

theorem noTry_gluonEpochBody {P G : Type} (F : Frame P G) (nb e : ℕ) :
    noTry (gluonEpochBody F nb e) = true := by
  have hloop : noTry (loopUnroll nb fun b => gluonBatchBody F b) = true :=
    noTry_loopUnroll (fun b => gluonBatchBody F b) (fun b => rfl) nb
  show (true && (true && (noTry (loopUnroll nb fun b => gluonBatchBody F b) &&
    noTry (gluonEpochEnd F)))) = true
  rw [hloop]
  rfl

theorem noTry_gluonTrainLoop {P G : Type} (F : Frame P G) (nb : ℕ) :
    noTry (gluonTrainLoop F nb) = true :=
  noTry_loopUnroll (gluonEpochBody F nb) (fun e => noTry_gluonEpochBody F nb e) 10

theorem noTry_vggEpochBody {P G : Type} (F : Frame P G) (e : ℕ) :
    noTry (vggEpochBody F e) = true := by
  have hloop : noTry (loopUnroll 781 fun b => vggBatchBody F b) = true :=
    noTry_loopUnroll (fun b => vggBatchBody F b) (fun b => rfl) 781
  show (true && (noTry (loopUnroll 781 fun b => vggBatchBody F b) &&
    noTry (vggEpochEnd F))) = true
  rw [hloop]
  rfl

theorem noTry_vggTrainLoop {P G : Type} (F : Frame P G) :
    noTry (vggTrainLoop F) = true :=
  noTry_loopUnroll (vggEpochBody F) (fun e => noTry_vggEpochBody F e) 10

theorem noTry_evalAccuracyStmt {P G : Type} (F : Frame P G) (nb : ℕ) :
    noTry (evalAccuracyStmt F nb) = true := by
  have hloop : noTry (loopUnroll nb (evalAccBatchBody F)) = true :=
    noTry_loopUnroll (evalAccBatchBody F) (fun b => rfl) nb
  show (true && (true && noTry (loopUnroll nb (evalAccBatchBody F)))) = true
  rw [hloop]
  rfl

/-! ## The value `evaluate_accuracy` returns -/

/-- The `mx.metric.Accuracy` fold over the whole iterator: `sum_metric`
accumulates the number of argmax/label matches and `num_inst` the number of
predictions. -/
theorem evalAcc_foldl {ι : Type} (net : ι → List ℚ) (it : List (DataBatch ι)) :
    ∀ (c n : ℕ),
      it.foldl (fun a b => accUpdateFn a (b.data.map fun d => argmax (net d)) b.label) (c, n)
      = (c + (it.map (fun b => b.data.zip b.label)).flatten.countP
              (fun s => argmax (net s.1) = s.2),
         n + (it.map (fun b => b.data.length)).sum) := by
  induction it with
  | nil => simp
  | cons b rest ih =>
    intro c n
    have hzip : ((b.data.map fun d => argmax (net d)).zip b.label).countP
        (fun pl => pl.1 = pl.2)
        = (b.data.zip b.label).countP (fun s => argmax (net s.1) = s.2) := by
      rw [List.zip_map_left, List.countP_map]
      rfl
    have hlen : (b.data.map fun d => argmax (net d)).length = b.data.length :=
      List.length_map _ _
    have hstep : accUpdateFn (c, n) (b.data.map fun d => argmax (net d)) b.label
        = (c + ((b.data.map fun d => argmax (net d)).zip b.label).countP
            (fun pl => pl.1 = pl.2),
           n + (b.data.map fun d => argmax (net d)).length) := rfl
    rw [List.foldl_cons, hstep, ih]
    simp only [List.map_cons, List.flatten_cons, List.countP_append, List.sum_cons]
    rw [hzip, hlen]
    simp only [Prod.mk.injEq]
    constructor <;> omega

/-! ## What the iterators feed an epoch -/

theorem flatten_chunks {α : Type} (B : ℕ) (l : List α) :
    ∀ n, ((List.range n).map (fun k => (l.drop (k * B)).take B)).flatten
      = l.take (n * B) := by
  intro n
  induction n with
  | zero => simp
  | succ m ih =>
    rw [List.range_succ, List.map_append, List.flatten_append, ih]
    simp only [List.map_cons, List.map_nil, List.flatten_cons, List.flatten_nil,
      List.append_nil]
    rw [Nat.succ_mul, List.take_add]

/-- Under `last_batch='discard'`, one epoch processes exactly the first
`⌊N/B⌋·B` samples of the iterator's order. -/
theorem discardPass_eq_take {α : Type} (B : ℕ) (l : List α) :
    discardPass B l = l.take (l.length / B * B) := by
  rw [discardPass, discardBatches, flatten_chunks]

theorem padAmount_lt {B n : ℕ} (hB : 0 < B) : padAmount B n < B :=
  Nat.mod_lt _ hB

/-- The padded length is a whole number of batches. -/
theorem padAmount_dvd {B : ℕ} (n : ℕ) (hB : 0 < B) : B ∣ (n + padAmount B n) := by
  have hr : n % B < B := Nat.mod_lt _ hB
  rcases Nat.eq_zero_or_pos (n % B) with h0 | hpos
  · have hp : padAmount B n = 0 := by
      simp [padAmount, h0, Nat.sub_zero, Nat.mod_self]
    rw [hp, Nat.add_zero]
    exact Nat.dvd_of_mod_eq_zero h0
  · have hp : padAmount B n = B - n % B := by
      rw [padAmount]
      exact Nat.mod_eq_of_lt (by omega)
    apply Nat.dvd_of_mod_eq_zero
    rw [hp, Nat.add_mod]
    have h1 : (B - n % B) % B = B - n % B := Nat.mod_eq_of_lt (by omega)
    rw [h1]
    have h2 : n % B + (B - n % B) = B := by omega
    rw [h2, Nat.mod_self]

/-- Under `NDArrayIter`'s default padding, one epoch processes the whole
order followed by its first `padAmount` samples again (when the data is at
least one batch long, as in both MNIST notebooks). -/
theorem padPass_eq {α : Type} (B : ℕ) (l : List α) (hB : 0 < B)
    (hpad : padAmount B l.length ≤ l.length) :
    padPass B l = l ++ l.take (padAmount B l.length) := by
  have hlen : (l ++ l.take (padAmount B l.length)).length
      = l.length + padAmount B l.length := by
    simp [List.length_append, List.length_take, Nat.min_eq_left hpad]
  have hgoal : discardPass B (l ++ l.take (padAmount B l.length))
      = l ++ l.take (padAmount B l.length) := by
    rw [discardPass_eq_take, hlen, Nat.div_mul_cancel (padAmount_dvd l.length hB),
      ← hlen]
    exact List.take_length _
  exact hgoal

/-! ## Concrete instances used by witnesses and concrete runs -/

/-- A concrete framework instance over ℕ-valued parameters: every batch has
mean loss 7 and every `trainer.step` adds one to the parameter counter, so a
run's parameter value counts its completed optimizer steps. -/
def natFrame : Frame ℕ Unit where
  lossOf := fun _ _ => 7
  gradOf := fun _ _ => ()
  stepF := fun p _ _ => p + 1
  testAcc := fun _ => 0
  trainAcc := fun _ => 0
  accObjTest := fun _ => 0
  accObjTrain := fun _ => 0
  correctOf := fun _ _ => 0

/-- A concrete mid-training state of a gluon/MNIST loop: scope binding `e`,
`smoothing_constant` and a previous `moving_loss` of 2. -/
def wGluonSt : TrainSt ℕ Unit :=
  ⟨0, (), false, 0, 0, 0,
   [("e", .num 0), ("smoothing_constant", .num (1/100)), ("moving_loss", .num 2)]⟩

/-- A concrete state whose scope binds neither `i` nor `alex_net`, as in the
VGG notebook. -/
def wVggSt : TrainSt ℕ Unit := ⟨0, (), false, 0, 0, 0, []⟩

/-! ## The claims -/

/-- Claim C1: in the two runnable (gluon/MNIST) training loops the smoothed
loss follows the stated recurrence — on the very first batch of the first
epoch `moving_loss` is set to that batch's mean loss, and on every later
batch to `(1-α)·moving_loss + α·(batch mean loss)` with `α =
smoothing_constant = 1/100` — but in the VGG training loop the very same
assignment raises `NameError: name 'i' is not defined` (the loop never binds
`i`), so the moving loss is never computed there.  This evaluates the code at
the failing input of the code-bug verdict. -/
theorem claim_C1 {P G : Type} (F : Frame P G) (b : ℕ) (st : TrainSt P G) (qe m : ℚ) :
    (envLookup st.env "e" = some (.num 0) →
      envLookup (exec (gluonBatchBody F 0) st).state.env "moving_loss"
        = some (.num (F.lossOf st.params 0))) ∧
    (envLookup st.env "e" = some (.num qe) →
      envLookup st.env "smoothing_constant" = some (.num (1/100)) →
      envLookup st.env "moving_loss" = some (.num m) →
      ¬((b : ℚ) = 0 ∧ qe = 0) →
      envLookup (exec (gluonBatchBody F b) st).state.env "moving_loss"
        = some (.num ((1 - 1/100) * m + (1/100) * F.lossOf st.params b))) ∧
    (envLookup st.env "i" = none →
      (exec (vggBatchBody F b) st).exc = some (.nameError "i")) := by
  refine ⟨fun he => ?_, fun he hsc hml hcase => ?_, fun hi => ?_⟩
  · rw [gluon_body_run_first F st he]
    simp [envLookup]
  · rw [gluon_body_run_later F b st qe m he hsc hml hcase]
    simp [envLookup]
  · rw [vgg_body_run F b st hi]

/-- Witness for C1 at concrete inputs. -/
theorem claim_C1_witness :
    (envLookup wGluonSt.env "e" = some (.num 0) ∧
     envLookup (exec (gluonBatchBody natFrame 0) wGluonSt).state.env "moving_loss"
       = some (.num 7)) ∧
    (¬(((1:ℕ) : ℚ) = 0 ∧ (0:ℚ) = 0) ∧
     envLookup (exec (gluonBatchBody natFrame 1) wGluonSt).state.env "moving_loss"
       = some (.num ((1 - 1/100) * 2 + (1/100) * 7))) ∧
    (envLookup wVggSt.env "i" = none ∧
     (exec (vggBatchBody natFrame 1) wVggSt).exc = some (.nameError "i")) :=
  ⟨⟨rfl, (claim_C1 natFrame 0 wGluonSt 0 2).1 rfl⟩,
   ⟨by norm_num, (claim_C1 natFrame 1 wGluonSt 0 2).2.1 rfl rfl rfl (by norm_num)⟩,
   ⟨rfl, (claim_C1 natFrame 1 wVggSt 0 2).2.2 rfl⟩⟩

/-- Claim C2: at every epoch end the two gluon/MNIST loops evaluate the
accuracy of the net being trained (a function of the current parameters) on
the test data then the training data and print both; the VGG loop instead
evaluates `alex_net`, a name it never binds — not the trained `vgg_net` —
so its epoch tail raises `NameError: name 'alex_net' is not defined`.  This
evaluates the code at the failing input of the code-bug verdict. -/
theorem claim_C2 {P G : Type} (F : Frame P G) (st : TrainSt P G) (qe qm : ℚ) :
    (envLookup st.env "e" = some (.num qe) →
      envLookup st.env "moving_loss" = some (.num qm) →
      (exec (gluonEpochEnd F) st).exc = none ∧
      envLookup (exec (gluonEpochEnd F) st).state.env "test_accuracy"
        = some (.num (F.testAcc st.params)) ∧
      envLookup (exec (gluonEpochEnd F) st).state.env "train_accuracy"
        = some (.num (F.trainAcc st.params)) ∧
      (exec (gluonEpochEnd F) st).events = [.accEval, .accEval, .printMetrics]) ∧
    (envLookup st.env "alex_net" = none →
      exec (vggEpochEnd F) st = ⟨st, [], some (.nameError "alex_net")⟩) := by
  refine ⟨fun he hml => ?_, fun ha => vgg_epoch_end_run F st ha⟩
  rw [gluon_epoch_end_run F st qe qm he hml]
  refine ⟨rfl, ?_, ?_, rfl⟩ <;> simp [envLookup]

/-- Witness for C2 at concrete inputs. -/
theorem claim_C2_witness :
    (envLookup wGluonSt.env "e" = some (.num 0) ∧
     envLookup wGluonSt.env "moving_loss" = some (.num 2) ∧
     (exec (gluonEpochEnd natFrame) wGluonSt).exc = none ∧
     (exec (gluonEpochEnd natFrame) wGluonSt).events
       = [.accEval, .accEval, .printMetrics]) ∧
    (envLookup wVggSt.env "alex_net" = none ∧
     exec (vggEpochEnd natFrame) wVggSt = ⟨wVggSt, [], some (.nameError "alex_net")⟩) :=
  ⟨⟨rfl, rfl, ((claim_C2 natFrame wGluonSt 0 2).1 rfl rfl).1,
    ((claim_C2 natFrame wGluonSt 0 2).1 rfl rfl).2.2.2⟩,
   ⟨rfl, (claim_C2 natFrame wVggSt 0 2).2 rfl⟩⟩

/-- Claim C5: the two gluon/MNIST loops are written as `for e in
range(epochs)` with `epochs = 10` (see `gluonTrainLoop`/`vggTrainLoop`,
whose outer unrolling is by construction `loopUnroll 10`), but the VGG
training run does not execute its ten epochs: it aborts with
`NameError: name 'i' is not defined` during the first batch of epoch 0, and
its trace contains none of the ten epoch-end `print` events.  This evaluates
the code at the failing input of the code-bug verdict. -/
theorem claim_C5 {P G : Type} (F : Frame P G) (p0 : P) (g0 : G) :
    vggTrainLoop F = loopUnroll 10 (vggEpochBody F) ∧
    gluonTrainLoop F 938 = loopUnroll 10 (gluonEpochBody F 938) ∧
    (exec (vggTrainLoop F) (vggInit p0 g0)).exc = some (.nameError "i") ∧
    (exec (vggTrainLoop F) (vggInit p0 g0)).events.count .printMetrics = 0 := by
  refine ⟨rfl, rfl, ?_, ?_⟩
  · rw [vgg_run_err]
  · rw [vgg_run_err]
    show List.count Ev.printMetrics
      [Ev.recordOn, Ev.forward, Ev.lossCalc, Ev.recordOff, Ev.backward, Ev.step] = 0
    decide

/-- Claim C6: in all three training loops, every mini-batch body performs, in
this order: enter `autograd.record()`, forward pass, loss computation, leave
the recording block, `loss.backward()`, one `trainer.step` scaled by the
batch size 64 (the parameters become one SGD step from the pre-batch
parameters and gradients computed from them), and only then the moving-loss
update.  In the gluon/MNIST loops the trace is exactly that sequence; in the
VGG loop the moving-loss update is likewise attempted last — after the
optimizer step has been applied — and never precedes it (there it raises, so
the trace ends at `step`). -/
theorem claim_C6 {P G : Type} (F : Frame P G) (b : ℕ) (st : TrainSt P G) (qe m : ℚ) :
    (envLookup st.env "e" = some (.num 0) →
      (exec (gluonBatchBody F 0) st).events
        = [.recordOn, .forward, .lossCalc, .recordOff, .backward, .step, .movingLossUpd] ∧
      (exec (gluonBatchBody F 0) st).exc = none ∧
      (exec (gluonBatchBody F 0) st).state.params
        = F.stepF st.params (F.gradOf st.params 0) 64) ∧
    (envLookup st.env "e" = some (.num qe) →
      envLookup st.env "smoothing_constant" = some (.num (1/100)) →
      envLookup st.env "moving_loss" = some (.num m) →
      ¬((b : ℚ) = 0 ∧ qe = 0) →
      (exec (gluonBatchBody F b) st).events
        = [.recordOn, .forward, .lossCalc, .recordOff, .backward, .step, .movingLossUpd] ∧
      (exec (gluonBatchBody F b) st).exc = none ∧
      (exec (gluonBatchBody F b) st).state.params
        = F.stepF st.params (F.gradOf st.params b) 64) ∧
    (envLookup st.env "i" = none →
      (exec (vggBatchBody F b) st).events
        = [.recordOn, .forward, .lossCalc, .recordOff, .backward, .step] ∧
      (exec (vggBatchBody F b) st).exc = some (.nameError "i") ∧
      (exec (vggBatchBody F b) st).state.params
        = F.stepF st.params (F.gradOf st.params b) 64) := by
  refine ⟨fun he => ?_, fun he hsc hml hcase => ?_, fun hi => ?_⟩
  · rw [gluon_body_run_first F st he]
    exact ⟨rfl, rfl, rfl⟩
  · rw [gluon_body_run_later F b st qe m he hsc hml hcase]
    exact ⟨rfl, rfl, rfl⟩
  · rw [vgg_body_run F b st hi]
    exact ⟨rfl, rfl, rfl⟩

/-- Witness for C6 at concrete inputs. -/
theorem claim_C6_witness :
    (envLookup wGluonSt.env "e" = some (.num 0) ∧
     (exec (gluonBatchBody natFrame 0) wGluonSt).events
       = [.recordOn, .forward, .lossCalc, .recordOff, .backward, .step, .movingLossUpd]) ∧
    (envLookup wVggSt.env "i" = none ∧
     (exec (vggBatchBody natFrame 1) wVggSt).events
       = [.recordOn, .forward, .lossCalc, .recordOff, .backward, .step]) :=
  ⟨⟨rfl, ((claim_C6 natFrame 0 wGluonSt 0 2).1 rfl).1⟩,
   ⟨rfl, ((claim_C6 natFrame 1 wVggSt 0 2).2.2 rfl).1⟩⟩

/-- Claim C7: two VGG runs differing only in the moving-loss bookkeeping
(the `curr_loss`/`moving_loss` assignments) produce observably different
results, so the bookkeeping is not inert in the VGG notebook: the run with
bookkeeping dies in the first batch with `NameError: name 'i' is not
defined` after a single optimizer step, whereas the run without it completes
all 781 optimizer steps of epoch 0 and dies at the epoch tail's
`NameError: name 'alex_net' is not defined`.  (In the runnable MNIST loops
the moving loss only feeds the epoch-end `print` — see `gluonBatchBody` and
`gluonEpochEnd`, where `moving_loss` is read by no primitive that touches
`params`.)  This evaluates the code at the failing input of the code-bug
verdict. -/
theorem claim_C7 :
    (exec (vggTrainLoop natFrame) (vggInit 0 ())).exc = some (.nameError "i") ∧
    (exec (vggTrainLoopNoBk natFrame) (vggInit 0 ())).exc
      = some (.nameError "alex_net") ∧
    (exec (vggTrainLoop natFrame) (vggInit 0 ())).state.params = 1 ∧
    (exec (vggTrainLoopNoBk natFrame) (vggInit 0 ())).state.params = 781 := by
  obtain ⟨h1, h2⟩ := vggNoBk_run_err natFrame 0 ()
  have hiter : ∀ (n : ℕ) (p : ℕ), paramsIter natFrame p n = p + n := by
    intro n
    induction n with
    | zero => intro p; rfl
    | succ k ih =>
      intro p
      show paramsIter natFrame p k + 1 = p + (k + 1)
      rw [ih p]
      omega
  refine ⟨?_, h1, ?_, ?_⟩
  · rw [vgg_run_err]
  · rw [vgg_run_err]
    rfl
  · rw [h2, hiter]

/-- Claim C3: `evaluate_accuracy` returns the fraction of samples seen in one
full pass over the iterator whose argmax-predicted class equals the integer
label: the number of matches divided by the number of samples. -/
theorem claim_C3 {ι : Type} (net : ι → List ℚ) (it : List (DataBatch ι))
    (hwf : ∀ b ∈ it, b.data.length = b.label.length) :
    evaluate_accuracy net it =
      (((it.map (fun b => b.data.zip b.label)).flatten.countP
          (fun s => argmax (net s.1) = s.2) : ℚ)) /
      (((it.map (fun b => b.data.zip b.label)).flatten.length : ℚ)) := by
  have hden : (it.map fun b => b.data.length).sum
      = (it.map (fun b => b.data.zip b.label)).flatten.length := by
    rw [List.length_flatten, List.map_map]
    apply congrArg List.sum
    apply List.map_congr_left
    intro b hb
    show b.data.length = (b.data.zip b.label).length
    rw [List.length_zip, hwf b hb, Nat.min_self]
  show (((it.foldl
      (fun a b => accUpdateFn a (b.data.map fun d => argmax (net d)) b.label)
      (0, 0)).1 : ℚ))
    / (((it.foldl
      (fun a b => accUpdateFn a (b.data.map fun d => argmax (net d)) b.label)
      (0, 0)).2 : ℚ))
    = (((it.map (fun b => b.data.zip b.label)).flatten.countP
        (fun s => argmax (net s.1) = s.2) : ℚ)) /
      (((it.map (fun b => b.data.zip b.label)).flatten.length : ℚ))
  rw [evalAcc_foldl net it 0 0]
  dsimp only
  rw [Nat.zero_add, Nat.zero_add, hden]

/-- A tiny concrete net and iterator for the C3 witness: two batches, three
samples in all, of which the first two are classified correctly. -/
def wNet : ℕ → List ℚ := fun x => if x = 0 then [1, 0] else [0, 1]

/-- The C3 witness iterator. -/
def wIt : List (DataBatch ℕ) := [⟨[0, 1], [0, 1]⟩, ⟨[1], [0]⟩]

/-- Witness for C3 at concrete inputs: the pass sees three samples, two
match, and `evaluate_accuracy` returns their quotient. -/
theorem claim_C3_witness :
    (∀ b ∈ wIt, b.data.length = b.label.length) ∧
    evaluate_accuracy wNet wIt =
      (((wIt.map (fun b => b.data.zip b.label)).flatten.countP
          (fun s => argmax (wNet s.1) = s.2) : ℚ)) /
      (((wIt.map (fun b => b.data.zip b.label)).flatten.length : ℚ)) ∧
    evaluate_accuracy wNet wIt = 2 / 3 :=
  ⟨by decide, claim_C3 wNet wIt (by decide), by
    rw [claim_C3 wNet wIt (by decide)]
    have hc : (wIt.map (fun b => b.data.zip b.label)).flatten.countP
        (fun s => argmax (wNet s.1) = s.2) = 2 := by decide
    have hl : (wIt.map (fun b => b.data.zip b.label)).flatten.length = 3 := by decide
    rw [hc, hl]
    norm_num⟩

/-- Claim C4, counterexample: an epoch of the VGG loop does not process every
sample of the training dataset exactly once.  CIFAR-10 has 50000 training
samples and the `DataLoader` uses `batch_size=64, last_batch='discard'`, so
whatever order the shuffle produced (here the concrete order `0, …, 49999`),
only `⌊50000/64⌋·64 = 49984` samples are processed: the sample at position
49999 of the order is processed zero times, not once. -/
theorem claim_C4_counterexample :
    ¬ (∀ x ∈ List.range 50000, (vggEpochSamples (List.range 50000)).count x = 1) := by
  intro h
  have h49999 := h 49999 (by simp)
  have hvgg : vggEpochSamples (List.range 50000) = List.range 49984 := by
    rw [vggEpochSamples, discardPass_eq_take, List.length_range]
    norm_num [List.take_range]
  rw [hvgg] at h49999
  have hnot : (49999 : ℕ) ∉ List.range 49984 := by simp
  rw [List.count_eq_zero_of_not_mem hnot] at h49999
  exact absurd h49999 (by norm_num)

/-- Claim C4, amended: an epoch is one full pass over the *batches the
iterator yields*, not necessarily over every sample exactly once.  With
`last_batch='discard'` (the VGG notebook) an epoch processes exactly
`⌊N/B⌋·B` samples, each at most as often as it occurs in the order — so when
`B ∤ N` the trailing `N mod B` samples of the order are skipped — and every
sample exactly once iff `B ∣ N`.  With `NDArrayIter`'s default padding (both
MNIST notebooks) an epoch processes `N + padAmount` samples (a whole number
of batches): every sample at least once, the first `padAmount` of them twice. -/
theorem claim_C4_amended {α : Type} [DecidableEq α] (B : ℕ) (l : List α) (hB : 0 < B) :
    (discardPass B l).length = l.length / B * B ∧
    (∀ x : α, (discardPass B l).count x ≤ l.count x) ∧
    (B ∣ l.length → discardPass B l = l) ∧
    (padAmount B l.length ≤ l.length →
      (padPass B l).length = l.length + padAmount B l.length ∧
      B ∣ (padPass B l).length ∧
      (∀ x ∈ l, x ∈ padPass B l)) := by
  refine ⟨?_, ?_, ?_, fun hpad => ⟨?_, ?_, ?_⟩⟩
  · rw [discardPass_eq_take, List.length_take]
    exact Nat.min_eq_left (Nat.div_mul_le_self _ _)
  · intro x
    rw [discardPass_eq_take]
    exact (List.take_sublist _ _).count_le x
  · intro hdvd
    rw [discardPass_eq_take, Nat.div_mul_cancel hdvd]
    exact List.take_length _
  · rw [padPass_eq B l hB hpad]
    simp [List.length_append, List.length_take, Nat.min_eq_left hpad]
  · rw [padPass_eq B l hB hpad]
    have : (l ++ l.take (padAmount B l.length)).length
        = l.length + padAmount B l.length := by
      simp [List.length_append, List.length_take, Nat.min_eq_left hpad]
    rw [this]
    exact padAmount_dvd l.length hB
  · intro x hx
    rw [padPass_eq B l hB hpad]
    exact List.mem_append_left _ hx

/-- Witness for the amended C4 at concrete inputs: `B = 2`, three samples.
The discard pass drops the third sample; the pad pass repeats the first. -/
theorem claim_C4_amended_witness :
    0 < 2 ∧
    (discardPass 2 [10, 20, 30]).length = 3 / 2 * 2 ∧
    (2 ∣ ([10, 20, 30] : List ℕ).length → discardPass 2 [10, 20, 30] = [10, 20, 30]) ∧
    (padAmount 2 3 ≤ 3 ∧
     (padPass 2 [10, 20, 30]).length = 3 + padAmount 2 3) :=
  ⟨by decide, (claim_C4_amended 2 [10, 20, 30] (by decide)).1,
   (claim_C4_amended 2 [10, 20, 30] (by decide)).2.2.1,
   by decide,
   ((claim_C4_amended 2 [10, 20, 30] (by decide)).2.2.2 (by decide)).1⟩

/-- Claim C8: the repository's programs contain no exception handling — no
`try/except` node occurs in any embedded training loop or in
`evaluate_accuracy` — and in the semantics an exception raised anywhere
aborts the remainder of a sequence, propagating to the caller unchanged with
the state exactly as it was at the point of failure. -/
theorem claim_C8 :
    (∀ (P G : Type) (F : Frame P G) (nb : ℕ),
      noTry (gluonTrainLoop F nb) = true ∧
      noTry (vggTrainLoop F) = true ∧
      noTry (evalAccuracyStmt F nb) = true) ∧
    (∀ (σ : Type) (a b : Stmt σ) (st : σ) (e : Exc),
      (exec a st).exc = some e → exec (.seq a b) st = exec a st) :=
  ⟨fun _ _ F nb =>
    ⟨noTry_gluonTrainLoop F nb, noTry_vggTrainLoop F, noTry_evalAccuracyStmt F nb⟩,
   fun _ _ b _ _ h => exec_seq_of_err b h⟩

/-- Witness for C8: a concrete raising statement whose error passes through a
following statement unchanged, with the failure state preserved. -/
theorem claim_C8_witness :
    (exec (.prim none fun _ : ℕ => .error (.runtimeError "boom")) 5).exc
      = some (.runtimeError "boom") ∧
    exec (.seq (.prim none fun _ : ℕ => .error (.runtimeError "boom")) .skip) 5
      = exec (.prim none fun _ : ℕ => .error (.runtimeError "boom")) 5 ∧
    exec (.prim none fun _ : ℕ => .error (.runtimeError "boom")) 5
      = ⟨5, [], some (.runtimeError "boom")⟩ :=
  ⟨rfl,
   claim_C8.2 ℕ (.prim none fun _ : ℕ => .error (.runtimeError "boom")) .skip 5
     (.runtimeError "boom") rfl,
   rfl⟩

/-- Claim C9: running `evaluate_accuracy` never raises and leaves the net's
trainable parameters (and the gradient buffers, the `autograd` recording
flag and the Python scope) exactly as they were; its trace contains only
`iterReset`, `forward` and `accUpdate` events — in particular no `backward`,
no optimizer `step`, and no entry into gradient recording. -/
theorem claim_C9 {P G : Type} (F : Frame P G) (nb : ℕ) (st : TrainSt P G) :
    (exec (evalAccuracyStmt F nb) st).exc = none ∧
    (exec (evalAccuracyStmt F nb) st).state.params = st.params ∧
    (exec (evalAccuracyStmt F nb) st).state.grads = st.grads ∧
    (exec (evalAccuracyStmt F nb) st).state.recording = st.recording ∧
    (exec (evalAccuracyStmt F nb) st).state.env = st.env ∧
    Ev.backward ∉ (exec (evalAccuracyStmt F nb) st).events ∧
    Ev.step ∉ (exec (evalAccuracyStmt F nb) st).events ∧
    Ev.recordOn ∉ (exec (evalAccuracyStmt F nb) st).events := by
  obtain ⟨h1, h2, h3, h4, h5, h6⟩ :=
    evalAcc_loop_run F nb { st with accC := 0, accN := 0 }
  have hinner : exec (.seq (.prim (some .iterReset) fun st : TrainSt P G => .ok st)
      (loopUnroll nb (evalAccBatchBody F))) { st with accC := 0, accN := 0 } =
      ⟨(exec (loopUnroll nb (evalAccBatchBody F)) { st with accC := 0, accN := 0 }).state,
       [Ev.iterReset] ++
         (exec (loopUnroll nb (evalAccBatchBody F)) { st with accC := 0, accN := 0 }).events,
       (exec (loopUnroll nb (evalAccBatchBody F)) { st with accC := 0, accN := 0 }).exc⟩ :=
    exec_seq_prim_ok (some .iterReset) (fun st => .ok st)
      (loopUnroll nb (evalAccBatchBody F))
      { st with accC := 0, accN := 0 } { st with accC := 0, accN := 0 } rfl
  have houter : exec (evalAccuracyStmt F nb) st =
      ⟨(exec (.seq (.prim (some .iterReset) fun st : TrainSt P G => .ok st)
          (loopUnroll nb (evalAccBatchBody F))) { st with accC := 0, accN := 0 }).state,
       [] ++ (exec (.seq (.prim (some .iterReset) fun st : TrainSt P G => .ok st)
          (loopUnroll nb (evalAccBatchBody F))) { st with accC := 0, accN := 0 }).events,
       (exec (.seq (.prim (some .iterReset) fun st : TrainSt P G => .ok st)
          (loopUnroll nb (evalAccBatchBody F))) { st with accC := 0, accN := 0 }).exc⟩ :=
    exec_seq_prim_ok none
      (fun st : TrainSt P G => .ok { st with accC := 0, accN := 0 })
      (.seq (.prim (some .iterReset) fun st : TrainSt P G => .ok st)
        (loopUnroll nb (evalAccBatchBody F)))
      st { st with accC := 0, accN := 0 } rfl
  rw [houter, hinner]
  have hmem : ∀ ev : Ev, ev ≠ .iterReset → ev ≠ .forward → ev ≠ .accUpdate →
      ev ∉ ([] : List Ev) ++ ([Ev.iterReset] ++
        (exec (loopUnroll nb (evalAccBatchBody F)) { st with accC := 0, accN := 0 }).events) := by
    intro ev hr hf ha hmem
    rcases List.mem_append.mp hmem with hl | hr2
    · cases hl
    · rcases List.mem_append.mp hr2 with hl2 | hr3
      · rw [List.mem_singleton] at hl2
        exact hr hl2
      · rcases h6 ev hr3 with hcase | hcase
        · exact hf hcase
        · exact ha hcase
  exact ⟨h1, h2, h3, h4, h5,
    hmem .backward (by decide) (by decide) (by decide),
    hmem .step (by decide) (by decide) (by decide),
    hmem .recordOn (by decide) (by decide) (by decide)⟩

/-- Claim C10: for NDArrays `x`, `y`, `z` of equal shape, the slice
assignment `z[:] = x + y` and the op-equals `x += y` store the elementwise
sum into the array object the target name already refers to — its identity
(heap address, Python's `id()`) is unchanged — whereas the plain rebinding
`y = y + x` leaves `y` referring to a freshly allocated array whose identity
differs from the old one. -/
theorem claim_C10 (s : NDState) (x y z : String) (ax ay az : ℕ)
    (hx : lookupVar s.vars x = some ax) (hy : lookupVar s.vars y = some ay)
    (hz : lookupVar s.vars z = some az)
    (hax : ax < s.heap.length) (hay : ay < s.heap.length) (haz : az < s.heap.length)
    (hshape : (getArr s ax).length = (getArr s ay).length ∧
              (getArr s az).length = (getArr s ax).length) :
    (sliceAssignAdd s z x y
        = some ⟨s.heap.set az (ndAdd (getArr s ax) (getArr s ay)), s.vars⟩ ∧
      lookupVar (⟨s.heap.set az (ndAdd (getArr s ax) (getArr s ay)), s.vars⟩ :
        NDState).vars z = some az ∧
      getArr ⟨s.heap.set az (ndAdd (getArr s ax) (getArr s ay)), s.vars⟩ az
        = ndAdd (getArr s ax) (getArr s ay)) ∧
    (iaddArr s x y
        = some ⟨s.heap.set ax (ndAdd (getArr s ax) (getArr s ay)), s.vars⟩ ∧
      lookupVar (⟨s.heap.set ax (ndAdd (getArr s ax) (getArr s ay)), s.vars⟩ :
        NDState).vars x = some ax ∧
      getArr ⟨s.heap.set ax (ndAdd (getArr s ax) (getArr s ay)), s.vars⟩ ax
        = ndAdd (getArr s ax) (getArr s ay)) ∧
    (rebindAdd s y x
        = some ⟨s.heap ++ [ndAdd (getArr s ay) (getArr s ax)],
                (y, s.heap.length) :: s.vars⟩ ∧
      lookupVar ((y, s.heap.length) :: s.vars) y = some s.heap.length ∧
      s.heap.length ≠ ay) := by
  refine ⟨⟨?_, hz, ?_⟩, ⟨?_, hx, ?_⟩, ⟨?_, ?_, ?_⟩⟩
  · simp [sliceAssignAdd, hx, hy, hz]
  · simp [getArr, List.getD_eq_getElem?_getD, List.getElem?_set_self, haz]
  · simp [iaddArr, hx, hy]
  · simp [getArr, List.getD_eq_getElem?_getD, List.getElem?_set_self, hax]
  · simp [rebindAdd, hx, hy]
  · simp [lookupVar]
  · exact (Nat.ne_of_lt hay).symm

/-- Witness for C10 at a concrete three-array session. -/
theorem claim_C10_witness :
    (lookupVar [("x", 0), ("y", 1), ("z", 2)] "x" = some 0 ∧
     lookupVar [("x", 0), ("y", 1), ("z", 2)] "y" = some 1 ∧
     lookupVar [("x", 0), ("y", 1), ("z", 2)] "z" = some 2) ∧
    sliceAssignAdd ⟨[[1, 2], [3, 4], [0, 0]], [("x", 0), ("y", 1), ("z", 2)]⟩
        "z" "x" "y"
      = some ⟨[[1, 2], [3, 4], [4, 6]], [("x", 0), ("y", 1), ("z", 2)]⟩ ∧
    iaddArr ⟨[[1, 2], [3, 4], [0, 0]], [("x", 0), ("y", 1), ("z", 2)]⟩ "x" "y"
      = some ⟨[[4, 6], [3, 4], [0, 0]], [("x", 0), ("y", 1), ("z", 2)]⟩ ∧
    rebindAdd ⟨[[1, 2], [3, 4], [0, 0]], [("x", 0), ("y", 1), ("z", 2)]⟩ "y" "x"
      = some ⟨[[1, 2], [3, 4], [0, 0], [4, 6]],
              [("y", 3), ("x", 0), ("y", 1), ("z", 2)]⟩ ∧
    (3 : ℕ) ≠ 1 := by
  have h := claim_C10 ⟨[[1, 2], [3, 4], [0, 0]], [("x", 0), ("y", 1), ("z", 2)]⟩
    "x" "y" "z" 0 1 2 rfl rfl rfl (by decide) (by decide) (by decide) (by decide)
  refine ⟨⟨rfl, rfl, rfl⟩, ?_, ?_, ?_, by decide⟩
  · have := h.1.1
    rw [this]
    norm_num [ndAdd, getArr]
  · have := h.2.1.1
    rw [this]
    norm_num [ndAdd, getArr]
  · have := h.2.2.1
    rw [this]
    norm_num [ndAdd, getArr]
